import Mathlib

/-!
Formal model of the pomoshnik backend's request-admission and
provider-routing core (`src/lib/ratelimit.ts`, `src/lib/db.ts`,
`src/lib/config.ts`, `src/api/ai.ts`, `src/api/verify.ts`), together with
theorems checking the specified behaviour of the rate limiter, the error
normalizer, the request translators, the license store and the proxy and
verification handlers.

Conventions of the embedding:
* JavaScript values flowing through untyped positions are modelled by the
  `JSON` inductive below, with JS truthiness modelled by `truthy`.
* Machine time (`Date.now()`) is an `Int` millisecond timestamp supplied as
  an explicit argument; calendar dates are the `SDate` structure.
* The Upstash Redis REST client (`redisCommand` in db.ts) has three
  observable behaviours: normal operation, "unreachable" (fetch fails or
  returns a non-OK status: the catch inside `redisCommand` swallows the
  error and the command resolves to `null`), and "misconfigured"
  (`KV_REST_API_URL`/`KV_REST_API_TOKEN` unset: `redisCommand` throws before
  issuing the request).  These are the `RedisMode` constructors.
-/

set_option linter.unusedVariables false

namespace Pomoshnik

/-- Model of an untyped JavaScript value (the shape of provider error
bodies and other dynamic data).  `undef` models JS `undefined` (e.g. a
missing object property). -/
inductive JSON where
  | undef
  | null
  | bool (b : Bool)
  | num (n : Int)
  | str (s : String)
  | arr (elems : List JSON)
  | obj (fields : List (String × JSON))

/-- JS truthiness of a value. -/
def truthy : JSON → Bool
  | .undef => false
  | .null => false
  | .bool b => b
  | .num n => n != 0
  | .str s => s != ""
  | .arr _ => true
  | .obj _ => true

/-- Property access `v.field` on an arbitrary JS value: a present key of an
object yields its value, every other access yields `undefined` (the code
only dereferences values it has checked to be truthy, or uses optional
chaining, so the throwing cases of JS property access are unreachable). -/
def jsGet (j : JSON) (field : String) : JSON :=
  match j with
  | .obj fs => match fs.lookup field with
    | some v => v
    | none => .undef
  | _ => .undef

mutual

/-- JS `String(v)` coercion (for arrays JS joins the stringified elements
with commas; objects give the usual placeholder). -/
def jsToString : JSON → String
  | .undef => "undefined"
  | .null => "null"
  | .bool true => "true"
  | .bool false => "false"
  | .num n => toString n
  | .str s => s
  | .arr xs => jsToStringList xs
  | .obj _ => "[object Object]"

/-- JS `String(·)` of an array's elements, comma-joined. -/
def jsToStringList : List JSON → String
  | [] => ""
  | [x] => jsToString x
  | x :: xs => jsToString x ++ "," ++ jsToStringList xs

end

/-- JS `v || d` where the result is consumed as a string: the value when
truthy (coerced), otherwise the default. -/
def strOr (v : JSON) (d : String) : String :=
  if truthy v then jsToString v else d

/-- JS strict comparison `v === 'error'`. -/
def isStrError : JSON → Bool
  | .str s => s == "error"
  | _ => false

-- ============================================================
-- src/api/ai.ts — Provider error normalization
-- ============================================================

/-- The normalized error shape produced by `normalizeProviderError`. -/
structure NormalizedError where
  message : String
  type : String
  code : String
  provider : String
  statusCode : Int
deriving DecidableEq

/-- The error envelope each provider branch extracts from the raw body:
`rawBody?.error`, except that for gemini an array-wrapped body is first
unwrapped (`Array.isArray(rawBody) ? rawBody[0]?.error : rawBody?.error`). -/
def errField (provider : String) (rawBody : JSON) : JSON :=
  if provider == "gemini" then
    match rawBody with
    | .arr xs => jsGet (xs.headD .undef) "error"
    | _ => jsGet rawBody "error"
  else jsGet rawBody "error"

/-- The `base` error `normalizeProviderError` starts from. -/
def baseError (provider : String) (statusCode : Int) : NormalizedError :=
  { message := "AI provider returned an error"
    type := "api_error"
    code := "provider_error"
    provider := provider
    statusCode := statusCode }

/-- The per-provider `switch` of `normalizeProviderError`: extraction of
message/type/code from the provider's error envelope, mutating `base`. -/
def providerExtract (provider : String) (statusCode : Int)
    (rawBody : JSON) : NormalizedError :=
  let base : NormalizedError := baseError provider statusCode
  if provider == "openai" || provider == "deepseek" then
      let err := errField provider rawBody
      if truthy err then
        { base with
          message := strOr (jsGet err "message") base.message
          type := strOr (jsGet err "type") base.type
          code := strOr (jsGet err "code") base.code }
      else base
    else if provider == "anthropic" then
      let err := errField provider rawBody
      if truthy err then
        { base with
          message := strOr (jsGet err "message") base.message
          type := strOr (jsGet err "type") base.type
          code := strOr (jsGet err "type") base.code }
      else if isStrError (jsGet rawBody "type") then
        { base with
          message := strOr (jsGet rawBody "message") base.message
          type := strOr (jsGet (jsGet rawBody "error") "type") base.type }
      else base
    else if provider == "gemini" then
      let err := errField provider rawBody
      if truthy err then
        { base with
          message := strOr (jsGet err "message") base.message
          code :=
            -- err.status || String(err.code) || base.code
            (if truthy (jsGet err "status") then jsToString (jsGet err "status")
             else if jsToString (jsGet err "code") != "" then jsToString (jsGet err "code")
             else base.code)
          type := "gemini_error" }
      else base
    else base

/-- `normalizeProviderError` from src/api/ai.ts: the per-provider
extraction (`providerExtract`), then a status-code override for 401/403,
429 and 500/502/503.  (The JS try/catch around the extraction can never
fire in this model since every operation is total.) -/
def normalizeProviderError (provider : String) (statusCode : Int)
    (rawBody : JSON) : NormalizedError :=
  let afterExtract : NormalizedError := providerExtract provider statusCode rawBody
  if statusCode == 401 || statusCode == 403 then
    { afterExtract with
      message := "Authentication error with " ++ provider ++ ". Please contact support."
      code := "provider_auth_error" }
  else if statusCode == 429 then
    { afterExtract with
      message := provider ++ " rate limit exceeded. Please try again in a moment."
      code := "provider_rate_limit" }
  else if statusCode == 500 || statusCode == 502 || statusCode == 503 then
    { afterExtract with
      message := provider ++ " is temporarily unavailable. Please try again later."
      code := "provider_unavailable" }
  else afterExtract

-- ============================================================
-- src/lib/ratelimit.ts — Sliding-window rate limiter
-- ============================================================

/-- The result shape of `checkRateLimit`. -/
structure RateLimitResult where
  allowed : Bool
  remaining : Nat
  limit : Nat
  resetInSeconds : Int
deriving DecidableEq

/-- `RATE_LIMITS` table from src/lib/ratelimit.ts (requests per minute). -/
def RATE_LIMITS : List (String × Nat) :=
  [("free", 5), ("starter", 15), ("pro", 30), ("business", 60)]

/-- `WINDOW_MS` from src/lib/ratelimit.ts. -/
def WINDOW_MS : Int := 60000

/-- The Redis sorted set backing one license key's window, plus the key's
TTL in seconds (set by `EXPIRE`).  Entries are (member, score) pairs with
score = timestamp in ms. -/
structure RLStore where
  entries : List (String × Int)
  ttl : Option Int
deriving DecidableEq

/-- Observable behaviour of `redisCommand` (see the header comment). -/
inductive RedisMode where
  | normal
  | unreachable
  | misconfigured
deriving DecidableEq

/-- `ZREMRANGEBYSCORE key lo hi`: drop every entry whose score lies in
[lo, hi]. -/
def zremrangebyscore (lo hi : Int) (es : List (String × Int)) :
    List (String × Int) :=
  es.filter (fun e => !(decide (lo ≤ e.2) && decide (e.2 ≤ hi)))

/-- The minimum score of a sorted set (`ZRANGE key 0 0 WITHSCORES` returns
the entry with the lowest score; the code reads only its score). -/
def minScore : List (String × Int) → Option Int
  | [] => none
  | e :: es =>
    match minScore es with
    | none => some e.2
    | some m => some (min e.2 m)

/-- `ZADD key score member`: update the member's score if it is present,
otherwise insert it. -/
def zaddEntry (member : String) (score : Int) (es : List (String × Int)) :
    List (String × Int) :=
  if es.any (fun e => e.1 == member) then
    es.map (fun e => if e.1 == member then (e.1, score) else e)
  else es ++ [(member, score)]

/-- Ceiling division for a positive divisor (JS `Math.ceil(a / b)` on
integer operands). -/
def ceilDiv (a b : Int) : Int := -((-a) / b)

/-- `checkRateLimit` from src/lib/ratelimit.ts, parameterized by the
behaviour of the Redis client, the current time `now` (`Date.now()`) and the
random `nonce` (`Math.random().toString(36).slice(2, 8)`).

* `.misconfigured`: the very first `redisCommand` call throws, so control
  reaches the catch block: fail open with `remaining = limit`.
* `.unreachable`: every `redisCommand` resolves to `null`; `ZCARD`'s `null`
  parses to a count of 0 (`parseInt(null) || 0`), the writes are lost, and
  the call is allowed with `remaining = max(0, limit - 0 - 1)`.
* `.normal`: the sliding-window algorithm over the sorted set. -/
def checkRateLimit (mode : RedisMode) (licenseKey plan : String) (now : Int)
    (nonce : String) (st : RLStore) : RateLimitResult × RLStore :=
  let limit : Nat := (RATE_LIMITS.lookup plan).getD 5  -- ?? RATE_LIMITS.free
  let windowStart : Int := now - WINDOW_MS
  let member : String := toString now ++ ":" ++ nonce
  match mode with
  | .misconfigured =>
    ({ allowed := true, remaining := limit, limit := limit
       resetInSeconds := ceilDiv WINDOW_MS 1000 }, st)
  | .unreachable =>
    let currentCount : Nat := 0
    if limit ≤ currentCount then
      ({ allowed := false, remaining := 0, limit := limit
         resetInSeconds := WINDOW_MS / 1000 }, st)
    else
      ({ allowed := true, remaining := limit - (currentCount + 1), limit := limit
         resetInSeconds := ceilDiv WINDOW_MS 1000 }, st)
  | .normal =>
    let pruned := zremrangebyscore 0 windowStart st.entries
    let currentCount := pruned.length
    if limit ≤ currentCount then
      let resetIn : Int :=
        match minScore pruned with
        | some oldestScore => max 1 (ceilDiv (oldestScore + WINDOW_MS - now) 1000)
        | none => WINDOW_MS / 1000
      ({ allowed := false, remaining := 0, limit := limit
         resetInSeconds := resetIn }, { st with entries := pruned })
    else
      ({ allowed := true, remaining := limit - (currentCount + 1), limit := limit
         resetInSeconds := ceilDiv WINDOW_MS 1000 },
       { entries := zaddEntry member now pruned
         ttl := some (ceilDiv WINDOW_MS 1000 + 10) })

/-- Spec-side prune: the entries surviving "remove every entry with
timestamp ≤ now − W". -/
def survivingEntries (now : Int) (es : List (String × Int)) :
    List (String × Int) :=
  es.filter (fun e => !decide (e.2 ≤ now - WINDOW_MS))

/-- Spec-side reset computation for a denied call:
`max(1, ceil((oldestTimestamp + 60000 − now) / 1000))`, or 60 when no
surviving entry exists. -/
def specResetInSeconds (now : Int) (pruned : List (String × Int)) : Int :=
  match minScore pruned with
  | some oldestTimestamp => max 1 (ceilDiv (oldestTimestamp + 60000 - now) 1000)
  | none => 60

-- ============================================================
-- src/lib/db.ts — License store
-- ============================================================

/-- A calendar instant as JS `Date` components: year, 0-based month,
day of month and milliseconds within the day.  Comparison of two `Date`s
(`now >= resetDate`) is the lexicographic order on these components. -/
structure SDate where
  year : Int
  month : Int
  day : Int
  ms : Int
deriving DecidableEq

/-- `a <= b` on dates (JS numeric comparison of the underlying instants). -/
def SDate.leb (a b : SDate) : Bool :=
  if a.year != b.year then a.year < b.year
  else if a.month != b.month then a.month < b.month
  else if a.day != b.day then a.day < b.day
  else a.ms ≤ b.ms

/-- `LicenseRecord` from src/lib/db.ts (`monthResetDate` is stored as an
ISO string in the source and re-parsed on use; it is modelled directly as
the date it denotes). -/
structure LicenseRecord where
  key : String
  email : String
  plan : String
  status : String
  stripeCustomerId : Option String
  stripeSubscriptionId : Option String
  tasksUsedThisMonth : Nat
  monthResetDate : SDate
  createdAt : SDate
  updatedAt : SDate
deriving DecidableEq

/-- The Redis keyspace used by db.ts: the `license:{key}` records and the
`email:{email}` → key index.  `SET` is modelled by prepending the binding
(lookup returns the most recent one). -/
structure DB where
  licenses : List (String × LicenseRecord)
  emails : List (String × String)
deriving DecidableEq

/-- `getLicense` from src/lib/db.ts (`GET license:{key}`, null → none). -/
def getLicense (db : DB) (licenseKey : String) : Option LicenseRecord :=
  db.licenses.lookup licenseKey

/-- `setLicense` from src/lib/db.ts: writes the record and maintains the
email → key index. -/
def setLicense (db : DB) (licenseKey : String) (record : LicenseRecord) : DB :=
  { licenses := (licenseKey, record) :: db.licenses
    emails := (record.email, licenseKey) :: db.emails }

/-- `getNextMonthReset` from src/lib/db.ts:
`new Date(now.getFullYear(), now.getMonth() + 1, 1)` — the JS constructor
normalizes month 12 of year y to month 0 of year y + 1. -/
def getNextMonthReset (now : SDate) : SDate :=
  if now.month == 11 then { year := now.year + 1, month := 0, day := 1, ms := 0 }
  else { year := now.year, month := now.month + 1, day := 1, ms := 0 }

/-- `incrementTaskCount` from src/lib/db.ts at current time `now`: returns
the JS function's return value (−1 when the record is missing, else the
counter after the increment) together with the store after the call. -/
def incrementTaskCount (now : SDate) (db : DB) (licenseKey : String) :
    Int × DB :=
  match getLicense db licenseKey with
  | none => (-1, db)
  | some record =>
    let record1 :=
      if SDate.leb record.monthResetDate now then
        { record with tasksUsedThisMonth := 0, monthResetDate := getNextMonthReset now }
      else record
    let record2 :=
      { record1 with tasksUsedThisMonth := record1.tasksUsedThisMonth + 1
                     updatedAt := now }
    ((record2.tasksUsedThisMonth : Int), setLicense db licenseKey record2)

/-- Spec-side: "the first of the next calendar month" after `now`. -/
def specFirstOfNextMonth (now : SDate) : SDate :=
  { year := if now.month == 11 then now.year + 1 else now.year
    month := if now.month == 11 then 0 else now.month + 1
    day := 1
    ms := 0 }

-- ============================================================
-- src/lib/config.ts — Plans, provider routing, model authorization
-- ============================================================

/-- `PlanConfig` from src/lib/config.ts. -/
structure PlanConfig where
  name : String
  taskLimit : Int
  models : List String
  streaming : Bool
deriving DecidableEq

/-- The free plan's configuration (`PLANS.free`). -/
def PLANS_free : PlanConfig :=
  { name := "Безплатен", taskLimit := 10
    models := ["gpt-4o-mini", "gemini-2.0-flash"], streaming := true }

/-- The `PLANS` table from src/lib/config.ts. -/
def PLANS : List (String × PlanConfig) :=
  [ ("free", PLANS_free),
    ("starter",
      { name := "Стартер", taskLimit := 100
        models := ["gpt-4o-mini", "gpt-4o", "gemini-2.0-flash",
                   "gemini-2.5-flash", "claude-sonnet-4-20250514",
                   "deepseek-chat"]
        streaming := true }),
    ("pro",
      { name := "Про", taskLimit := 500
        models := ["gpt-4o-mini", "gpt-4o", "o3-mini", "gemini-2.0-flash",
                   "gemini-2.5-flash", "gemini-2.5-pro",
                   "claude-sonnet-4-20250514", "claude-opus-4-20250514",
                   "deepseek-chat", "deepseek-reasoner"]
        streaming := true }),
    ("business",
      { name := "Бизнес", taskLimit := -1
        models := ["gpt-4o-mini", "gpt-4o", "o3-mini", "gemini-2.0-flash",
                   "gemini-2.5-flash", "gemini-2.5-pro",
                   "claude-sonnet-4-20250514", "claude-opus-4-20250514",
                   "deepseek-chat", "deepseek-reasoner"]
        streaming := true }) ]

/-- `getProviderFromModel` from src/lib/config.ts. -/
def getProviderFromModel (model : String) : Option String :=
  if model.startsWith "gpt-" || model.startsWith "o3-" || model.startsWith "o1-" then
    some "openai"
  else if model.startsWith "claude-" then some "anthropic"
  else if model.startsWith "gemini-" then some "gemini"
  else if model.startsWith "deepseek-" then some "deepseek"
  else none

/-- `isModelAllowed` from src/lib/config.ts (`PLANS[plan] || PLANS.free`,
then prefix-or-equality match against the plan's model list). -/
def isModelAllowed (plan model : String) : Bool :=
  let planConfig := (PLANS.lookup plan).getD PLANS_free
  planConfig.models.any (fun allowed => model.startsWith allowed || model == allowed)

-- ============================================================
-- src/api/ai.ts — canonical request and per-provider translators
-- ============================================================

/-- A message's `content` field: a string, or any other JS value (the
gemini translator distinguishes the two with `typeof`). -/
inductive MsgContent where
  | str (s : String)
  | jsonVal (j : JSON)

/-- One entry of the canonical `messages` array. -/
structure Msg where
  role : String
  content : MsgContent

/-- Escape of `"` and `\` inside a JSON string literal (control-character
escapes elided; no claim evaluates them). -/
def escapeJSONString (s : String) : String :=
  String.mk (s.data.foldr
    (fun c acc => if c == '"' || c == '\\' then '\\' :: c :: acc else c :: acc) [])

mutual

/-- `JSON.stringify` (on `undefined` inside an array JS emits `null`;
the top-level-undefined corner is not exercised by the source). -/
def stringifyJSON : JSON → String
  | .undef => "null"
  | .null => "null"
  | .bool true => "true"
  | .bool false => "false"
  | .num n => toString n
  | .str s => "\"" ++ escapeJSONString s ++ "\""
  | .arr xs => "[" ++ stringifyJSONList xs ++ "]"
  | .obj fs => "\x7b" ++ stringifyJSONFields fs ++ "\x7d"

/-- Comma-joined stringification of array elements. -/
def stringifyJSONList : List JSON → String
  | [] => ""
  | [x] => stringifyJSON x
  | x :: xs => stringifyJSON x ++ "," ++ stringifyJSONList xs

/-- Comma-joined stringification of object fields. -/
def stringifyJSONFields : List (String × JSON) → String
  | [] => ""
  | [(k, v)] => "\"" ++ escapeJSONString k ++ "\":" ++ stringifyJSON v
  | (k, v) :: fs =>
    "\"" ++ escapeJSONString k ++ "\":" ++ stringifyJSON v ++ ","
      ++ stringifyJSONFields fs

end

/-- The request body accepted by the proxy endpoint (`req.body`); optional
fields are `none` when absent (`undefined`).  `messages` is `none` when
absent or not an array. -/
structure CanonBody where
  model : Option String
  messages : Option (List Msg)
  temperature : Option Int
  max_tokens : Option Int
  top_p : Option Int
  stream : Option Bool
  response_format : Option JSON
  stream_options : Option JSON

/-- JS template interpolation of a possibly-undefined string. -/
def optStr : Option String → String
  | some s => s
  | none => "undefined"

/-- Payload built by `buildOpenAIRequest` (shared by openai and deepseek). -/
structure OpenAIPayload where
  model : Option String
  messages : List Msg
  temperature : Option Int
  max_tokens : Option Int
  stream : Option Bool
  response_format : Option JSON
  top_p : Option Int
  stream_options : Option JSON

/-- An upstream call descriptor with an OpenAI-shaped payload. -/
structure OpenAIRequest where
  url : String
  headers : List (String × String)
  payload : OpenAIPayload

/-- `buildOpenAIRequest` from src/api/ai.ts. -/
def buildOpenAIRequest (body : CanonBody) (apiKey : String)
    (provider : String) : OpenAIRequest :=
  { url :=
      if provider == "deepseek" then "https://api.deepseek.com/chat/completions"
      else "https://api.openai.com/v1/chat/completions"
    headers :=
      [("Content-Type", "application/json"),
       ("Authorization", "Bearer " ++ apiKey)]
    payload :=
      { model := body.model
        messages := body.messages.getD []
        temperature := body.temperature
        max_tokens := body.max_tokens
        stream := body.stream
        response_format := body.response_format
        top_p := body.top_p
        stream_options :=
          -- if (body.stream && body.stream_options)
          if body.stream == some true then body.stream_options else none } }

/-- Payload built by `buildAnthropicRequest`. -/
structure AnthropicPayload where
  model : Option String
  messages : List Msg
  max_tokens : Int
  system : Option MsgContent
  temperature : Option Int
  stream : Option Bool
  top_p : Option Int

/-- An upstream call descriptor with an Anthropic-shaped payload. -/
structure AnthropicRequest where
  url : String
  headers : List (String × String)
  payload : AnthropicPayload

/-- `buildAnthropicRequest` from src/api/ai.ts.  Note
`max_tokens: body.max_tokens || 4096` uses JS truthiness: the default also
fires when `max_tokens` is present but 0. -/
def buildAnthropicRequest (body : CanonBody) (apiKey : String) :
    AnthropicRequest :=
  let msgs := body.messages.getD []
  let systemMessage := msgs.find? (fun m => m.role == "system")
  let nonSystemMessages := msgs.filter (fun m => m.role != "system")
  { url := "https://api.anthropic.com/v1/messages"
    headers :=
      [("Content-Type", "application/json"),
       ("x-api-key", apiKey),
       ("anthropic-version", "2023-06-01")]
    payload :=
      { model := body.model
        messages := nonSystemMessages
        max_tokens :=
          match body.max_tokens with
          | some v => if v == 0 then 4096 else v
          | none => 4096
        system := systemMessage.map (fun m => m.content)
        temperature := body.temperature
        stream := body.stream
        top_p := body.top_p } }

/-- One `parts` element of a gemini `contents` turn. -/
structure GeminiPart where
  text : String

/-- One turn of the gemini `contents` array. -/
structure GeminiContent where
  role : String
  parts : List GeminiPart

/-- The gemini `generationConfig` object (fields set only when present on
the canonical request). -/
structure GenerationConfig where
  temperature : Option Int
  maxOutputTokens : Option Int
  topP : Option Int

/-- One `parts` element of `systemInstruction` (the source puts the raw
message content here, without the `typeof`-stringify step used for
`contents`). -/
structure GeminiSysPart where
  text : MsgContent

/-- The gemini `systemInstruction` object. -/
structure GeminiSystemInstruction where
  parts : List GeminiSysPart

/-- Payload built by `buildGeminiRequest`. -/
structure GeminiPayload where
  contents : List GeminiContent
  generationConfig : GenerationConfig
  systemInstruction : Option GeminiSystemInstruction

/-- An upstream call descriptor with a gemini-shaped payload. -/
structure GeminiRequest where
  url : String
  headers : List (String × String)
  payload : GeminiPayload

/-- `typeof m.content === 'string' ? m.content : JSON.stringify(m.content)`. -/
def geminiText : MsgContent → String
  | .str s => s
  | .jsonVal j => stringifyJSON j

/-- `buildGeminiRequest` from src/api/ai.ts. -/
def buildGeminiRequest (body : CanonBody) (apiKey : String) : GeminiRequest :=
  let msgs := body.messages.getD []
  let systemMessage := msgs.find? (fun m => m.role == "system")
  let nonSystemMessages := msgs.filter (fun m => m.role != "system")
  let contents : List GeminiContent := nonSystemMessages.map (fun m =>
    { role := if m.role == "assistant" then "model" else "user"
      parts := [{ text := geminiText m.content }] })
  let method := if body.stream == some true then "streamGenerateContent"
                else "generateContent"
  { url := "https://generativelanguage.googleapis.com/v1beta" ++ "/models/"
      ++ optStr body.model ++ ":" ++ method ++ "?key=" ++ apiKey
    headers := [("Content-Type", "application/json")]
    payload :=
      { contents := contents
        generationConfig :=
          { temperature := body.temperature
            maxOutputTokens := body.max_tokens
            topP := body.top_p }
        systemInstruction :=
          systemMessage.map (fun m => { parts := [{ text := m.content }] }) } }

-- ============================================================
-- src/api/ai.ts — proxy handler
-- ============================================================

/-- An inbound HTTP request: method, the two credential headers (lookup
results of `req.headers['x-license-key']` / `req.headers['authorization']`,
`none` when absent or not a single string), and the parsed JSON body. -/
structure Request where
  method : String
  xLicenseKey : Option String
  authorization : Option String
  body : CanonBody

/-- The JSON body of a response, as far as the theorems observe it. -/
inductive RespBody where
  | empty
  | errJson (message : String) (etype : String) (code : Option String)
      (retryAfter : Option Int)
  | json (j : JSON)
  | streamed

/-- An outbound HTTP response: status code, the headers set on it via
`res.setHeader` (in call order), and its body. -/
structure Response where
  status : Int
  headers : List (String × String)
  body : RespBody

/-- Outcome of the `fetch` to the upstream provider: a 2xx body, a non-2xx
status with its error body, or a thrown error (network failure / body that
fails to parse), which lands in the handler's top-level catch. -/
inductive FetchOutcome where
  | ok (body : JSON)
  | httpError (status : Int) (body : JSON)
  | crash

/-- The handler's environment: the license store, the limiter's verdict per
(key, plan), the provider API keys from the process environment, the
generated request id, the upstream fetch outcome and whether the upstream
streaming body exposes a reader. -/
structure ProxyEnv where
  db : DB
  rate : String → String → RateLimitResult
  apiKeys : String → Option String
  requestId : String
  fetch : FetchOutcome
  streamReadable : Bool

/-- `extractLicenseKey` from src/api/ai.ts: the `X-License-Key` header when
present and truthy, else the `Authorization` header when it starts with the
literal `Bearer ` (then the rest, trimmed), else nothing. -/
def extractLicenseKey (req : Request) : Option String :=
  match req.xLicenseKey with
  | some xKey =>
    if xKey != "" then some xKey
    else
      match req.authorization with
      | some auth =>
        if auth != "" && auth.startsWith "Bearer " then
          some ((auth.drop 7).trim)
        else none
      | none => none
  | none =>
    match req.authorization with
    | some auth =>
      if auth != "" && auth.startsWith "Bearer " then
        some ((auth.drop 7).trim)
      else none
    | none => none

/-- The 401 returned for an absent credential. -/
def missingKeyResponse : Response :=
  { status := 401, headers := []
    body := .errJson
      "Missing license key. Please enter your license key in extension settings."
      "authentication_error" (some "missing_license_key") none }

/-- The 401 returned for a missing-or-inactive license. -/
def invalidKeyResponse : Response :=
  { status := 401, headers := []
    body := .errJson
      "Invalid or expired license key. Please check your key or renew your subscription."
      "authentication_error" (some "invalid_license_key") none }

/-- `PLANS[plan]?.name || plan` (the display name used in the 403 body). -/
def planDisplayName (plan : String) : String :=
  match PLANS.lookup plan with
  | some planConfig => if planConfig.name != "" then planConfig.name else plan
  | none => plan

/-- The 500 produced by the top-level catch. -/
def internalErrorResponse (hdrs : List (String × String)) : Response :=
  { status := 500, headers := hdrs
    body := .errJson "AI proxy internal error. Please try again."
      "server_error" (some "internal_error") none }

/-- The tail of the proxy handler after rate admission succeeded: payload
validation, model authorization, monthly-quota gate, provider resolution,
API-key resolution, usage increment (a store effect with no bearing on the
response), translation and upstream relay.  `hdrs` holds the rate-limit
headers already set on the response. -/
def afterAdmission (req : Request) (env : ProxyEnv) (plan : String)
    (license : LicenseRecord) (hdrs : List (String × String)) : Response :=
  match req.body.model with
  | none =>
    { status := 400, headers := hdrs
      body := .errJson "Missing model" "invalid_request_error" none none }
  | some model =>
    if model == "" then
      { status := 400, headers := hdrs
        body := .errJson "Missing model" "invalid_request_error" none none }
    else
      match req.body.messages with
      | none =>
        { status := 400, headers := hdrs
          body := .errJson "Missing or invalid messages" "invalid_request_error"
            none none }
      | some messages =>
        if messages.isEmpty then
          { status := 400, headers := hdrs
            body := .errJson "Missing or invalid messages" "invalid_request_error"
              none none }
        else if !isModelAllowed plan model then
          { status := 403, headers := hdrs
            body := .errJson
              ("Model \"" ++ model ++ "\" is not available on your "
                ++ planDisplayName plan ++ " plan. Please upgrade.")
              "permission_error" (some "model_not_allowed") none }
        else
          let planConfig := (PLANS.lookup plan).getD PLANS_free
          if planConfig.taskLimit != -1
              && decide (planConfig.taskLimit ≤ (license.tasksUsedThisMonth : Int)) then
            { status := 429, headers := hdrs
              body := .errJson
                ("Monthly task limit reached (" ++ toString planConfig.taskLimit
                  ++ "). Please upgrade your plan.")
                "rate_limit_error" (some "task_limit_reached") none }
          else
            match getProviderFromModel model with
            | none =>
              { status := 400, headers := hdrs
                body := .errJson
                  ("Unknown model: " ++ model ++ ". Cannot determine provider.")
                  "invalid_request_error" (some "unknown_model") none }
            | some provider =>
              match env.apiKeys provider with
              | none =>
                { status := 503, headers := hdrs
                  body := .errJson
                    ("Provider " ++ provider
                      ++ " is temporarily unavailable. Contact support.")
                    "server_error" (some "provider_not_configured") none }
              | some apiKey =>
                -- await incrementTaskCount(licenseKey): store effect only
                if req.body.stream == some true then
                  match env.fetch with
                  | .crash => internalErrorResponse hdrs
                  | .httpError upstreamStatus errorBody =>
                    let normalized :=
                      normalizeProviderError provider upstreamStatus errorBody
                    { status := upstreamStatus, headers := hdrs
                      body := .errJson normalized.message normalized.type
                        (some normalized.code) none }
                  | .ok _ =>
                    let streamHdrs := hdrs ++
                      [("Content-Type", "text/event-stream"),
                       ("Cache-Control", "no-cache"),
                       ("Connection", "keep-alive"),
                       ("Access-Control-Allow-Origin", "*"),
                       ("X-Request-Id", env.requestId)]
                    if env.streamReadable then
                      { status := 200, headers := streamHdrs, body := .streamed }
                    else
                      { status := 500, headers := streamHdrs
                        body := .errJson "Failed to read stream" "server_error"
                          none none }
                else
                  match env.fetch with
                  | .crash => internalErrorResponse hdrs
                  | .httpError upstreamStatus errorBody =>
                    let normalized :=
                      normalizeProviderError provider upstreamStatus errorBody
                    { status := upstreamStatus, headers := hdrs
                      body := .errJson normalized.message normalized.type
                        (some normalized.code) none }
                  | .ok responseData =>
                    { status := 200
                      headers := hdrs ++
                        [("Access-Control-Allow-Origin", "*"),
                         ("X-Request-Id", env.requestId)]
                      body := .json responseData }

/-- The proxy `handler` from src/api/ai.ts: CORS preflight, method gate,
credential extraction, license validation, rate admission (with the
`Retry-After` / `X-RateLimit-*` headers), then `afterAdmission`. -/
def handler (req : Request) (env : ProxyEnv) : Response :=
  if req.method == "OPTIONS" then
    { status := 200
      headers :=
        [("Access-Control-Allow-Origin", "*"),
         ("Access-Control-Allow-Methods", "GET, POST, OPTIONS"),
         ("Access-Control-Allow-Headers",
          "Content-Type, Authorization, X-License-Key, X-Feature")]
      body := .empty }
  else if req.method != "POST" then
    { status := 405, headers := []
      body := .errJson "Method not allowed" "invalid_request_error" none none }
  else
    match extractLicenseKey req with
    | none => missingKeyResponse
    | some licenseKey =>
      if licenseKey == "" then missingKeyResponse  -- if (!licenseKey)
      else
        match getLicense env.db licenseKey with
        | none => invalidKeyResponse
        | some license =>
          if license.status != "active" then invalidKeyResponse
          else
            let plan := if license.plan != "" then license.plan else "free"
            let rateResult := env.rate licenseKey plan
            if !rateResult.allowed then
              { status := 429
                headers :=
                  [("Retry-After", toString rateResult.resetInSeconds),
                   ("X-RateLimit-Limit", toString rateResult.limit),
                   ("X-RateLimit-Remaining", "0")]
                body := .errJson
                  ("Rate limit exceeded. Maximum " ++ toString rateResult.limit
                    ++ " requests per minute on your " ++ plan
                    ++ " plan. Retry after " ++ toString rateResult.resetInSeconds
                    ++ " seconds.")
                  "rate_limit_error" (some "rate_limit_exceeded")
                  (some rateResult.resetInSeconds) }
            else
              afterAdmission req env plan license
                [("X-RateLimit-Limit", toString rateResult.limit),
                 ("X-RateLimit-Remaining", toString rateResult.remaining)]

/-- `true` iff a header of that name was set on the response. -/
def hasHeader (r : Response) (name : String) : Bool :=
  r.headers.any (fun h => h.1 == name)

-- ============================================================
-- src/api/verify.ts — verification handler
-- ============================================================

/-- A response of the verification endpoint, as far as the theorems
observe it: status, headers, and the `active` / `error` / `status` fields
of its JSON body. -/
structure VerifyResponse where
  status : Int
  headers : List (String × String)
  active : Option Bool
  error : Option String
  licenseStatus : Option String

/-- The `handler` from src/api/verify.ts (its inline credential extraction
is literally the body of `extractLicenseKey`, so that definition is
reused).  Unlike the proxy, it answers 404 for an unknown key and 403 with
the license's status for an inactive one. -/
def verifyHandler (req : Request) (db : DB) : VerifyResponse :=
  if req.method == "OPTIONS" then
    { status := 200
      headers :=
        [("Access-Control-Allow-Origin", "*"),
         ("Access-Control-Allow-Methods", "GET, OPTIONS"),
         ("Access-Control-Allow-Headers", "Content-Type, Authorization, X-License-Key")]
      active := none, error := none, licenseStatus := none }
  else if req.method != "GET" then
    { status := 405, headers := [], active := none
      error := some "Method not allowed", licenseStatus := none }
  else
    match extractLicenseKey req with
    | none =>
      { status := 401, headers := [], active := some false
        error := some "Missing license key", licenseStatus := none }
    | some licenseKey =>
      if licenseKey == "" then
        { status := 401, headers := [], active := some false
          error := some "Missing license key", licenseStatus := none }
      else
        match getLicense db licenseKey with
        | none =>
          { status := 404
            headers := [("Access-Control-Allow-Origin", "*")]
            active := some false
            error := some "License key not found", licenseStatus := none }
        | some license =>
          if license.status != "active" then
            { status := 403
              headers := [("Access-Control-Allow-Origin", "*")]
              active := some false
              error := some ("License is " ++ license.status)
              licenseStatus := some license.status }
          else
            { status := 200
              headers := [("Access-Control-Allow-Origin", "*")]
              active := some true
              error := none, licenseStatus := none }

-- ============================================================
-- Theorems
-- ============================================================

/-- Every plan's per-minute limit (including the fallback) is positive. -/
theorem rateLimit_pos (plan : String) : 1 ≤ (RATE_LIMITS.lookup plan).getD 5 := by
  simp only [RATE_LIMITS, List.lookup]
  repeat' split
  all_goals decide

/-- `ZADD` leaves the added (member, score) pair in the set. -/
theorem zaddEntry_mem (member : String) (score : Int)
    (es : List (String × Int)) : (member, score) ∈ zaddEntry member score es := by
  unfold zaddEntry
  split
  · next h =>
    rw [List.any_eq_true] at h
    obtain ⟨e, he, heq⟩ := h
    rw [List.mem_map]
    refine ⟨e, he, ?_⟩
    have h1 : e.1 = member := by rwa [beq_iff_eq] at heq
    simp [heq, h1]
  · exact List.mem_append_right _ (List.mem_singleton.mpr rfl)

/-- The code's prune (`ZREMRANGEBYSCORE key 0 windowStart`) agrees with the
spec's "drop entries with timestamp ≤ now − W" on stores whose timestamps
are non-negative. -/
theorem zrem_eq_surviving (now : Int) (es : List (String × Int))
    (hnonneg : ∀ e ∈ es, 0 ≤ e.2) :
    zremrangebyscore 0 (now - WINDOW_MS) es = survivingEntries now es := by
  unfold zremrangebyscore survivingEntries
  refine List.filter_congr ?_
  intro e he
  have h0 : (0 : Int) ≤ e.2 := hnonneg e he
  simp [h0]

/-- C1: with a working store, `checkRateLimit` implements the sliding
window: the limit is resolved from the plan table with the free plan (5) as
fallback; after pruning entries with timestamp ≤ now − 60000, a surviving
count at or above the limit denies with remaining = 0 and
resetInSeconds = max(1, ceil((oldestTimestamp + 60000 − now)/1000)) (60 if
no surviving entry exists); a count below the limit records the
(now, nonce) entry, refreshes the key's expiry to window + buffer (70 s)
and allows with remaining = limit − count − 1 (a truncated, hence floored
at 0, subtraction). -/
theorem C1_checkRateLimit_sliding_window (licenseKey plan : String)
    (now : Int) (nonce : String) (st : RLStore)
    (hnonneg : ∀ e ∈ st.entries, 0 ≤ e.2) :
    (checkRateLimit .normal licenseKey plan now nonce st).1.limit
        = (RATE_LIMITS.lookup plan).getD 5 ∧
    ((RATE_LIMITS.lookup plan).getD 5 ≤ (survivingEntries now st.entries).length →
      (checkRateLimit .normal licenseKey plan now nonce st).1.allowed = false ∧
      (checkRateLimit .normal licenseKey plan now nonce st).1.remaining = 0 ∧
      (checkRateLimit .normal licenseKey plan now nonce st).1.resetInSeconds
          = specResetInSeconds now (survivingEntries now st.entries) ∧
      (checkRateLimit .normal licenseKey plan now nonce st).2.entries
          = survivingEntries now st.entries ∧
      (checkRateLimit .normal licenseKey plan now nonce st).2.ttl = st.ttl) ∧
    ((survivingEntries now st.entries).length < (RATE_LIMITS.lookup plan).getD 5 →
      (checkRateLimit .normal licenseKey plan now nonce st).1.allowed = true ∧
      (checkRateLimit .normal licenseKey plan now nonce st).1.remaining
          = (RATE_LIMITS.lookup plan).getD 5
              - (survivingEntries now st.entries).length - 1 ∧
      (toString now ++ ":" ++ nonce, now)
          ∈ (checkRateLimit .normal licenseKey plan now nonce st).2.entries ∧
      (checkRateLimit .normal licenseKey plan now nonce st).2.entries
          = zaddEntry (toString now ++ ":" ++ nonce) now
              (survivingEntries now st.entries) ∧
      (checkRateLimit .normal licenseKey plan now nonce st).2.ttl = some 70) := by
  have hprune := zrem_eq_surviving now st.entries hnonneg
  have hden : (RATE_LIMITS.lookup plan).getD 5
        ≤ (survivingEntries now st.entries).length →
      checkRateLimit .normal licenseKey plan now nonce st
        = ({ allowed := false, remaining := 0
             limit := (RATE_LIMITS.lookup plan).getD 5
             resetInSeconds :=
               specResetInSeconds now (survivingEntries now st.entries) },
           { entries := survivingEntries now st.entries, ttl := st.ttl }) := by
    intro hc
    simp only [checkRateLimit, hprune]
    rw [if_pos hc]
    rfl
  have hallow : (survivingEntries now st.entries).length
        < (RATE_LIMITS.lookup plan).getD 5 →
      checkRateLimit .normal licenseKey plan now nonce st
        = ({ allowed := true
             remaining := (RATE_LIMITS.lookup plan).getD 5
               - ((survivingEntries now st.entries).length + 1)
             limit := (RATE_LIMITS.lookup plan).getD 5
             resetInSeconds := 60 },
           { entries := zaddEntry (toString now ++ ":" ++ nonce) now
               (survivingEntries now st.entries)
             ttl := some 70 }) := by
    intro hc
    simp only [checkRateLimit, hprune]
    rw [if_neg (Nat.not_le.mpr hc)]
    rfl
  refine ⟨?_, fun hc => ?_, fun hc => ?_⟩
  · by_cases hc : (RATE_LIMITS.lookup plan).getD 5
        ≤ (survivingEntries now st.entries).length
    · rw [hden hc]
    · rw [hallow (Nat.not_le.mp hc)]
  · rw [hden hc]
    exact ⟨rfl, rfl, rfl, rfl, rfl⟩
  · rw [hallow hc]
    refine ⟨rfl, ?_, zaddEntry_mem _ _ _, rfl, rfl⟩
    show (RATE_LIMITS.lookup plan).getD 5
        - ((survivingEntries now st.entries).length + 1)
      = (RATE_LIMITS.lookup plan).getD 5
        - (survivingEntries now st.entries).length - 1
    omega

/-- Witness for C1 at a concrete store: two surviving entries on the free
plan, so the call is admitted with remaining = 5 − 2 − 1 = 2 and the new
entry recorded. -/
theorem C1_checkRateLimit_sliding_window_witness :
    (∀ e ∈ ([("a", (50000 : Int)), ("b", 90000)] : List (String × Int)), 0 ≤ e.2) ∧
    (checkRateLimit .normal "k" "free" 100000 "ab"
        { entries := [("a", 50000), ("b", 90000)], ttl := none }).1.allowed = true ∧
    (checkRateLimit .normal "k" "free" 100000 "ab"
        { entries := [("a", 50000), ("b", 90000)], ttl := none }).1.remaining = 2 ∧
    (checkRateLimit .normal "k" "free" 100000 "ab"
        { entries := [("a", 50000), ("b", 90000)], ttl := none }).2.ttl = some 70 := by
  have hnn : ∀ e ∈ ([("a", (50000 : Int)), ("b", 90000)] : List (String × Int)),
      0 ≤ e.2 := by decide
  have h := C1_checkRateLimit_sliding_window "k" "free" 100000 "ab"
    { entries := [("a", 50000), ("b", 90000)], ttl := none } hnn
  have hlen : (survivingEntries 100000
      ([("a", (50000 : Int)), ("b", 90000)] : List (String × Int))).length
      < (RATE_LIMITS.lookup "free").getD 5 := by decide
  obtain ⟨-, -, h3⟩ := h
  obtain ⟨ha, hr, -, -, ht⟩ := h3 hlen
  exact ⟨hnn, ha, by rw [hr]; decide, ht⟩

/-- C2 counterexample: with the counter store unreachable (the Redis REST
client catches the failure and resolves every command to `null`), the free
plan's call is allowed but `remaining` is 4, not the plan's full limit 5 as
the claim states. -/
theorem C2_counterexample :
    (checkRateLimit .unreachable "key" "free" 0 "nonce"
        { entries := [], ttl := none }).1.allowed = true ∧
    (checkRateLimit .unreachable "key" "free" 0 "nonce"
        { entries := [], ttl := none }).1.remaining = 4 ∧
    (RATE_LIMITS.lookup "free").getD 5 = 5 := by
  refine ⟨by decide, by decide, by decide⟩

/-- C2 (amended): `checkRateLimit` always fails open, but the remaining
quota it reports depends on how the store fails.  When the store is
unreachable (commands resolve to `null`), the count reads as 0 and the call
is allowed with remaining = limit − 1, with the store untouched.  Only when
the store client is misconfigured (the command layer throws) does the catch
block return the plan's full limit as remaining. -/
theorem C2_fail_open_degraded (licenseKey plan : String) (now : Int)
    (nonce : String) (st : RLStore) :
    ((checkRateLimit .unreachable licenseKey plan now nonce st).1.allowed = true ∧
     (checkRateLimit .unreachable licenseKey plan now nonce st).1.remaining
        = (RATE_LIMITS.lookup plan).getD 5 - 1 ∧
     (checkRateLimit .unreachable licenseKey plan now nonce st).2 = st) ∧
    ((checkRateLimit .misconfigured licenseKey plan now nonce st).1
        = { allowed := true, remaining := (RATE_LIMITS.lookup plan).getD 5
            limit := (RATE_LIMITS.lookup plan).getD 5, resetInSeconds := 60 } ∧
     (checkRateLimit .misconfigured licenseKey plan now nonce st).2 = st) := by
  have hpos := rateLimit_pos plan
  have hnotle : ¬ ((RATE_LIMITS.lookup plan).getD 5 ≤ 0) := by omega
  have hu : checkRateLimit .unreachable licenseKey plan now nonce st
      = ({ allowed := true
           remaining := (RATE_LIMITS.lookup plan).getD 5 - 1
           limit := (RATE_LIMITS.lookup plan).getD 5
           resetInSeconds := 60 }, st) := by
    simp only [checkRateLimit]
    rw [if_neg hnotle]
    rfl
  refine ⟨⟨?_, ?_, ?_⟩, rfl, rfl⟩
  · rw [hu]
  · rw [hu]
  · rw [hu]

/-- The per-provider extraction never changes the provider field. -/
theorem providerExtract_provider (provider : String) (statusCode : Int)
    (rawBody : JSON) :
    (providerExtract provider statusCode rawBody).provider = provider := by
  simp only [providerExtract]
  repeat' split
  all_goals rfl

/-- The per-provider extraction never changes the status field. -/
theorem providerExtract_statusCode (provider : String) (statusCode : Int)
    (rawBody : JSON) :
    (providerExtract provider statusCode rawBody).statusCode = statusCode := by
  simp only [providerExtract]
  repeat' split
  all_goals rfl

/-- When the body offers no usable error envelope, every provider branch
leaves the base error untouched. -/
theorem providerExtract_default (provider : String) (statusCode : Int)
    (rawBody : JSON) (htr : truthy (errField provider rawBody) = false)
    (hty : isStrError (jsGet rawBody "type") = false) :
    providerExtract provider statusCode rawBody
      = baseError provider statusCode := by
  simp only [providerExtract]
  repeat' split
  all_goals simp_all

/-- C3: `normalizeProviderError` (a total function, so it cannot throw)
always carries the input provider and status through; for status 401/403,
429 and 500/502/503 the returned message and code are the canonical
authentication / rate-limit / temporarily-unavailable ones regardless of
the body (the override runs after every per-provider extraction, including
provider C's array-wrapped body); and when the body yields no usable error
envelope (its `error` field is falsy and, for the anthropic fallback, its
`type` is not `'error'`) and no override applies, the result degrades to
the generic provider-returned-an-error message with default type and
code. -/
theorem C3_normalizeProviderError_overrides (provider : String)
    (statusCode : Int) (rawBody : JSON) :
    (normalizeProviderError provider statusCode rawBody).provider = provider ∧
    (normalizeProviderError provider statusCode rawBody).statusCode = statusCode ∧
    ((statusCode = 401 ∨ statusCode = 403) →
      (normalizeProviderError provider statusCode rawBody).message
        = "Authentication error with " ++ provider ++ ". Please contact support." ∧
      (normalizeProviderError provider statusCode rawBody).code
        = "provider_auth_error") ∧
    (statusCode = 429 →
      (normalizeProviderError provider statusCode rawBody).message
        = provider ++ " rate limit exceeded. Please try again in a moment." ∧
      (normalizeProviderError provider statusCode rawBody).code
        = "provider_rate_limit") ∧
    ((statusCode = 500 ∨ statusCode = 502 ∨ statusCode = 503) →
      (normalizeProviderError provider statusCode rawBody).message
        = provider ++ " is temporarily unavailable. Please try again later." ∧
      (normalizeProviderError provider statusCode rawBody).code
        = "provider_unavailable") ∧
    (truthy (errField provider rawBody) = false →
      isStrError (jsGet rawBody "type") = false →
      statusCode ≠ 401 → statusCode ≠ 403 → statusCode ≠ 429 →
      statusCode ≠ 500 → statusCode ≠ 502 → statusCode ≠ 503 →
      normalizeProviderError provider statusCode rawBody
        = { message := "AI provider returned an error", type := "api_error"
            code := "provider_error", provider := provider
            statusCode := statusCode }) := by
  refine ⟨?_, ?_, ?_, ?_, ?_, ?_⟩
  · simp only [normalizeProviderError]
    repeat' split
    all_goals exact providerExtract_provider provider statusCode rawBody
  · simp only [normalizeProviderError]
    repeat' split
    all_goals exact providerExtract_statusCode provider statusCode rawBody
  · rintro (rfl | rfl) <;> exact ⟨rfl, rfl⟩
  · rintro rfl
    exact ⟨rfl, rfl⟩
  · rintro (rfl | rfl | rfl) <;> exact ⟨rfl, rfl⟩
  · intro htr hty h1 h2 h3 h4 h5 h6
    have hx := providerExtract_default provider statusCode rawBody htr hty
    simp only [normalizeProviderError]
    rw [if_neg (by simp [h1, h2]), if_neg (by simp [h3]),
      if_neg (by simp [h4, h5, h6])]
    rw [hx]
    rfl

/-- Witness for C3 at the spec's own test vector: provider C's
array-wrapped 429 body normalizes to the canonical rate-limit phrasing
regardless of the embedded message. -/
theorem C3_normalizeProviderError_overrides_witness :
    (normalizeProviderError "gemini" 429
      (.arr [.obj [("error",
        .obj [("code", .num 429), ("message", .str "quota")])]])).message
      = "gemini rate limit exceeded. Please try again in a moment." := by
  have h := C3_normalizeProviderError_overrides "gemini" 429
    (.arr [.obj [("error",
      .obj [("code", .num 429), ("message", .str "quota")])]])
  exact (h.2.2.2.1 rfl).1

/-- C5: `buildGeminiRequest` extracts the (first) system-role message into
the dedicated `systemInstruction` field, maps assistant-role messages to
role "model" and every other (in particular user-role) message to role
"user", wraps each message's content in a parts/text content part, nests
temperature, max-output-tokens and top-p under `generationConfig` exactly
when present, selects `streamGenerateContent` in the URL when streaming is
requested and `generateContent` otherwise, and embeds the API key as the
`key` query parameter while sending only a Content-Type header (no auth
header). -/
theorem C5_buildGeminiRequest_shape (body : CanonBody) (apiKey : String) :
    (buildGeminiRequest body apiKey).payload.systemInstruction
      = ((body.messages.getD []).find? (fun m => m.role == "system")).map
          (fun m => { parts := [{ text := m.content }] }) ∧
    (buildGeminiRequest body apiKey).payload.contents
      = ((body.messages.getD []).filter (fun m => m.role != "system")).map
          (fun m =>
            { role := if m.role == "assistant" then "model" else "user"
              parts := [{ text := geminiText m.content }] }) ∧
    (buildGeminiRequest body apiKey).payload.generationConfig
      = { temperature := body.temperature
          maxOutputTokens := body.max_tokens
          topP := body.top_p } ∧
    (buildGeminiRequest body apiKey).url
      = "https://generativelanguage.googleapis.com/v1beta/models/"
          ++ optStr body.model ++ ":"
          ++ (if body.stream == some true then "streamGenerateContent"
              else "generateContent")
          ++ "?key=" ++ apiKey ∧
    (buildGeminiRequest body apiKey).headers
      = [("Content-Type", "application/json")] := by
  refine ⟨rfl, rfl, rfl, ?_, rfl⟩
  simp only [buildGeminiRequest]
  rfl

/-- Concrete body used to exhibit the `max_tokens` falsiness corner of
`buildAnthropicRequest`. -/
def anthropicZeroTokensBody : CanonBody :=
  { model := some "claude-sonnet-4-20250514"
    messages := some [{ role := "user", content := .str "hi" }]
    temperature := none
    max_tokens := some 0
    top_p := none
    stream := none
    response_format := none
    stream_options := none }

/-- C6 counterexample: on a request whose max-output-tokens is set to 0,
`buildAnthropicRequest` does not pass the set value through — JS
`body.max_tokens || 4096` treats 0 as unset and substitutes the 4096
default. -/
theorem C6_counterexample :
    anthropicZeroTokensBody.max_tokens = some 0 ∧
    (buildAnthropicRequest anthropicZeroTokensBody "key").payload.max_tokens
      = 4096 ∧
    (buildAnthropicRequest anthropicZeroTokensBody "key").payload.max_tokens
      ≠ 0 := by
  refine ⟨rfl, rfl, by decide⟩

/-- C6 (amended): `buildAnthropicRequest` extracts the (first) system-role
message's content into the top-level `system` field, passes exactly the
non-system messages in their original order, and sets `max_tokens` to the
request's max-output-tokens value when it is set and nonzero, and to 4096
when it is unset — or set to 0, which JS truthiness conflates with
unset. -/
theorem C6_buildAnthropicRequest_shape (body : CanonBody) (apiKey : String) :
    (buildAnthropicRequest body apiKey).payload.system
      = ((body.messages.getD []).find? (fun m => m.role == "system")).map
          (fun m => m.content) ∧
    (buildAnthropicRequest body apiKey).payload.messages
      = (body.messages.getD []).filter (fun m => m.role != "system") ∧
    (∀ v : Int, body.max_tokens = some v → v ≠ 0 →
      (buildAnthropicRequest body apiKey).payload.max_tokens = v) ∧
    ((body.max_tokens = none ∨ body.max_tokens = some 0) →
      (buildAnthropicRequest body apiKey).payload.max_tokens = 4096) := by
  refine ⟨rfl, rfl, ?_, ?_⟩
  · intro v hv hnz
    simp only [buildAnthropicRequest, hv]
    rw [if_neg (by simpa using hnz)]
  · rintro (hv | hv) <;> simp [buildAnthropicRequest, hv]

/-- Witness for C6 at a concrete request carrying a system message, a user
turn and max-output-tokens 1024. -/
theorem C6_buildAnthropicRequest_shape_witness :
    (buildAnthropicRequest
      { model := some "claude-sonnet-4-20250514"
        messages := some [{ role := "system", content := .str "be brief" },
                          { role := "user", content := .str "hi" }]
        temperature := none, max_tokens := some 1024, top_p := none
        stream := none, response_format := none, stream_options := none }
      "key").payload.max_tokens = 1024 := by
  exact (C6_buildAnthropicRequest_shape
    { model := some "claude-sonnet-4-20250514"
      messages := some [{ role := "system", content := .str "be brief" },
                        { role := "user", content := .str "hi" }]
      temperature := none, max_tokens := some 1024, top_p := none
      stream := none, response_format := none, stream_options := none }
    "key").2.2.1 1024 rfl (by decide)

/-- A freshly written record is what a subsequent lookup returns. -/
theorem getLicense_setLicense (db : DB) (licenseKey : String)
    (record : LicenseRecord) :
    getLicense (setLicense db licenseKey record) licenseKey = some record := by
  simp [getLicense, setLicense, List.lookup]

/-- C7: for an existing license record, `incrementTaskCount` keeps
`tasksUsedThisMonth` non-decreasing while the current time is before the
stored reset date (it grows by exactly 1), and when called at or after the
stored reset date it zeroes the counter and advances the reset date to the
first of the next calendar month before incrementing, so the stored
counter after that call is exactly 1. -/
theorem C7_incrementTaskCount_monthly_reset (now : SDate) (db : DB)
    (licenseKey : String) (record : LicenseRecord)
    (hrec : getLicense db licenseKey = some record) :
    (SDate.leb record.monthResetDate now = false →
      ∃ stored : LicenseRecord,
        getLicense (incrementTaskCount now db licenseKey).2 licenseKey
          = some stored ∧
        stored.tasksUsedThisMonth = record.tasksUsedThisMonth + 1 ∧
        record.tasksUsedThisMonth ≤ stored.tasksUsedThisMonth ∧
        stored.monthResetDate = record.monthResetDate) ∧
    (SDate.leb record.monthResetDate now = true →
      ∃ stored : LicenseRecord,
        getLicense (incrementTaskCount now db licenseKey).2 licenseKey
          = some stored ∧
        stored.tasksUsedThisMonth = 1 ∧
        stored.monthResetDate = specFirstOfNextMonth now) := by
  constructor
  · intro hbefore
    have hget : getLicense (incrementTaskCount now db licenseKey).2 licenseKey
        = some { record with
                 tasksUsedThisMonth := record.tasksUsedThisMonth + 1
                 updatedAt := now } := by
      simp only [incrementTaskCount, hrec, hbefore, Bool.false_eq_true,
        if_false]
      exact getLicense_setLicense _ _ _
    exact ⟨_, hget, rfl, Nat.le_succ _, rfl⟩
  · intro hafter
    have hnext : getNextMonthReset now = specFirstOfNextMonth now := by
      unfold getNextMonthReset specFirstOfNextMonth
      split <;> simp_all
    have hget : getLicense (incrementTaskCount now db licenseKey).2 licenseKey
        = some { record with
                 tasksUsedThisMonth := 0 + 1
                 monthResetDate := getNextMonthReset now
                 updatedAt := now } := by
      simp only [incrementTaskCount, hrec, hafter, eq_self_iff_true, if_true]
      exact getLicense_setLicense _ _ _
    exact ⟨_, hget, rfl, hnext⟩

/-- Witness for C7 on a concrete store: before the reset date the counter
advances 7 → 8; at a time past the reset date the stored counter is 1 and
the reset date moves to the first of the following month. -/
theorem C7_incrementTaskCount_monthly_reset_witness :
    ∃ stored : LicenseRecord,
      getLicense
        (incrementTaskCount { year := 2026, month := 0, day := 15, ms := 0 }
          { licenses := [("POM-K", {
              key := "POM-K", email := "a@b.c", plan := "starter"
              status := "active", stripeCustomerId := none
              stripeSubscriptionId := none, tasksUsedThisMonth := 7
              monthResetDate := { year := 2026, month := 1, day := 1, ms := 0 }
              createdAt := { year := 2025, month := 11, day := 3, ms := 0 }
              updatedAt := { year := 2025, month := 11, day := 3, ms := 0 } })]
            emails := [("a@b.c", "POM-K")] }
          "POM-K").2 "POM-K" = some stored ∧
      stored.tasksUsedThisMonth = 8 := by
  have h := C7_incrementTaskCount_monthly_reset
    { year := 2026, month := 0, day := 15, ms := 0 }
    { licenses := [("POM-K", {
        key := "POM-K", email := "a@b.c", plan := "starter"
        status := "active", stripeCustomerId := none
        stripeSubscriptionId := none, tasksUsedThisMonth := 7
        monthResetDate := { year := 2026, month := 1, day := 1, ms := 0 }
        createdAt := { year := 2025, month := 11, day := 3, ms := 0 }
        updatedAt := { year := 2025, month := 11, day := 3, ms := 0 } })]
      emails := [("a@b.c", "POM-K")] }
    "POM-K"
    { key := "POM-K", email := "a@b.c", plan := "starter"
      status := "active", stripeCustomerId := none
      stripeSubscriptionId := none, tasksUsedThisMonth := 7
      monthResetDate := { year := 2026, month := 1, day := 1, ms := 0 }
      createdAt := { year := 2025, month := 11, day := 3, ms := 0 }
      updatedAt := { year := 2025, month := 11, day := 3, ms := 0 } }
    (by decide)
  obtain ⟨stored, hs, hc, -, -⟩ := h.1 (by decide)
  exact ⟨stored, hs, by rw [hc]⟩

/-- C9: when the looked-up license record is absent, `incrementTaskCount`
returns −1 and the store — both the `license:` records and the `email:`
index — is exactly what it was. -/
theorem C9_incrementTaskCount_missing_noop (now : SDate) (db : DB)
    (licenseKey : String) (habsent : getLicense db licenseKey = none) :
    incrementTaskCount now db licenseKey = (-1, db) := by
  simp only [incrementTaskCount, habsent]

/-- Witness for C9 on an empty store. -/
theorem C9_incrementTaskCount_missing_noop_witness :
    getLicense { licenses := [], emails := [] } "POM-X" = none ∧
    incrementTaskCount { year := 2026, month := 0, day := 1, ms := 0 }
        { licenses := [], emails := [] } "POM-X"
      = (-1, { licenses := [], emails := [] }) := by
  refine ⟨rfl, ?_⟩
  exact C9_incrementTaskCount_missing_noop
    { year := 2026, month := 0, day := 1, ms := 0 }
    { licenses := [], emails := [] } "POM-X" rfl

/-- A header that is in the set-header list is reported by `hasHeader`. -/
theorem hasHeader_of_mem (r : Response) (n v : String)
    (h : (n, v) ∈ r.headers) : hasHeader r n = true := by
  unfold hasHeader
  rw [List.any_eq_true]
  exact ⟨(n, v), h, by simp⟩

/-- Every branch of the post-admission tail keeps the already-set headers
on the response. -/
theorem afterAdmission_headers (req : Request) (env : ProxyEnv)
    (plan : String) (license : LicenseRecord) (hdrs : List (String × String))
    (hd : String × String) (h : hd ∈ hdrs) :
    hd ∈ (afterAdmission req env plan license hdrs).headers := by
  unfold afterAdmission
  repeat' split
  all_goals try simp_all [internalErrorResponse, List.mem_append]
  all_goals split
  all_goals simp_all [internalErrorResponse, List.mem_append]

/-- C4 counterexample: a POST request presenting no credential at all is
rejected before rate admission with a 401 that carries neither
`X-RateLimit-Limit` nor `X-RateLimit-Remaining`, contradicting the claim
that every rejection — including stages before rate admission — carries
them. -/
theorem C4_counterexample :
    (handler
      { method := "POST", xLicenseKey := none, authorization := none
        body := { model := none, messages := none, temperature := none
                  max_tokens := none, top_p := none, stream := none
                  response_format := none, stream_options := none } }
      { db := { licenses := [], emails := [] }
        rate := fun _ _ =>
          { allowed := true, remaining := 4, limit := 5, resetInSeconds := 60 }
        apiKeys := fun _ => none, requestId := "req-1"
        fetch := .crash, streamReadable := false }).status = 401 ∧
    hasHeader (handler
      { method := "POST", xLicenseKey := none, authorization := none
        body := { model := none, messages := none, temperature := none
                  max_tokens := none, top_p := none, stream := none
                  response_format := none, stream_options := none } }
      { db := { licenses := [], emails := [] }
        rate := fun _ _ =>
          { allowed := true, remaining := 4, limit := 5, resetInSeconds := 60 }
        apiKeys := fun _ => none, requestId := "req-1"
        fetch := .crash, streamReadable := false }) "X-RateLimit-Limit"
      = false ∧
    hasHeader (handler
      { method := "POST", xLicenseKey := none, authorization := none
        body := { model := none, messages := none, temperature := none
                  max_tokens := none, top_p := none, stream := none
                  response_format := none, stream_options := none } }
      { db := { licenses := [], emails := [] }
        rate := fun _ _ =>
          { allowed := true, remaining := 4, limit := 5, resetInSeconds := 60 }
        apiKeys := fun _ => none, requestId := "req-1"
        fetch := .crash, streamReadable := false }) "X-RateLimit-Remaining"
      = false := by
  exact ⟨rfl, rfl, rfl⟩

/-- C4 (amended): once a POST request passes credential extraction and
license validation, the response always carries `X-RateLimit-Limit` and
`X-RateLimit-Remaining` — both on the limiter's 429 rejection (which
additionally carries `Retry-After`) and on every later outcome, success or
failure.  Responses produced before rate admission (preflight, wrong
method, missing or invalid license key) carry no rate-limit headers, as
the counterexample shows. -/
theorem C4_rate_limit_headers_after_admission (req : Request)
    (env : ProxyEnv) (licenseKey : String) (license : LicenseRecord)
    (hm : req.method = "POST")
    (hk : extractLicenseKey req = some licenseKey) (hne : licenseKey ≠ "")
    (hlic : getLicense env.db licenseKey = some license)
    (hact : license.status = "active") :
    hasHeader (handler req env) "X-RateLimit-Limit" = true ∧
    hasHeader (handler req env) "X-RateLimit-Remaining" = true ∧
    ((env.rate licenseKey
        (if license.plan != "" then license.plan else "free")).allowed = false →
      hasHeader (handler req env) "Retry-After" = true) := by
  have h1 : (req.method == "OPTIONS") = false := by simp [hm]
  have h2 : (req.method != "POST") = false := by simp [hm]
  have h3 : (licenseKey == "") = false := by simp [hne]
  have h4 : (license.status != "active") = false := by simp [hact]
  by_cases hall : (env.rate licenseKey
      (if license.plan != "" then license.plan else "free")).allowed
  · have heq : handler req env
        = afterAdmission req env
            (if license.plan != "" then license.plan else "free") license
            [("X-RateLimit-Limit",
              toString (env.rate licenseKey
                (if license.plan != "" then license.plan else "free")).limit),
             ("X-RateLimit-Remaining",
              toString (env.rate licenseKey
                (if license.plan != "" then license.plan else "free")).remaining)] := by
      simp only [handler, h1, h2, hk, h3, hlic, h4, hall, Bool.not_true,
        Bool.false_eq_true, if_false]
    refine ⟨?_, ?_, fun hcontra => ?_⟩
    rotate_right
    · rw [hall] at hcontra
      exact absurd hcontra (by decide)
    · refine hasHeader_of_mem _ _
        (toString (env.rate licenseKey
          (if license.plan != "" then license.plan else "free")).limit) ?_
      rw [heq]
      exact afterAdmission_headers _ _ _ _ _ _ (List.mem_cons_self _ _)
    · refine hasHeader_of_mem _ _
        (toString (env.rate licenseKey
          (if license.plan != "" then license.plan else "free")).remaining) ?_
      rw [heq]
      refine afterAdmission_headers _ _ _ _ _ _ ?_
      exact List.mem_cons_of_mem _ (List.mem_cons_self _ _)
  · rw [Bool.not_eq_true] at hall
    have heq : handler req env
        = { status := 429
            headers :=
              [("Retry-After",
                toString (env.rate licenseKey
                  (if license.plan != "" then license.plan else "free")).resetInSeconds),
               ("X-RateLimit-Limit",
                toString (env.rate licenseKey
                  (if license.plan != "" then license.plan else "free")).limit),
               ("X-RateLimit-Remaining", "0")]
            body := .errJson
              ("Rate limit exceeded. Maximum "
                ++ toString (env.rate licenseKey
                    (if license.plan != "" then license.plan else "free")).limit
                ++ " requests per minute on your "
                ++ (if license.plan != "" then license.plan else "free")
                ++ " plan. Retry after "
                ++ toString (env.rate licenseKey
                    (if license.plan != "" then license.plan else "free")).resetInSeconds
                ++ " seconds.")
              "rate_limit_error" (some "rate_limit_exceeded")
              (some (env.rate licenseKey
                (if license.plan != "" then license.plan else "free")).resetInSeconds) } := by
      simp only [handler, h1, h2, hk, h3, hlic, h4, hall, Bool.not_false,
        Bool.false_eq_true, if_false, eq_self_iff_true, if_true]
    rw [heq]
    refine ⟨?_, ?_, fun _ => ?_⟩ <;> rfl

/-- An active starter license fixture for concrete handler runs. -/
def starterLicense : LicenseRecord :=
  { key := "POM-W", email := "a@b.c", plan := "starter"
    status := "active", stripeCustomerId := none
    stripeSubscriptionId := none, tasksUsedThisMonth := 0
    monthResetDate := { year := 2026, month := 1, day := 1, ms := 0 }
    createdAt := { year := 2025, month := 11, day := 3, ms := 0 }
    updatedAt := { year := 2025, month := 11, day := 3, ms := 0 } }

/-- A request presenting that license over X-License-Key with a minimal
valid chat body. -/
def starterRequest : Request :=
  { method := "POST", xLicenseKey := some "POM-W", authorization := none
    body := { model := some "gpt-4o-mini"
              messages := some [{ role := "user", content := .str "hi" }]
              temperature := none, max_tokens := none, top_p := none
              stream := none, response_format := none
              stream_options := none } }

/-- An environment holding that license, an admitting limiter and no
configured provider keys (so the request fails after admission, 503). -/
def starterEnv : ProxyEnv :=
  { db := { licenses := [("POM-W", starterLicense)]
            emails := [("a@b.c", "POM-W")] }
    rate := fun _ _ =>
      { allowed := true, remaining := 14, limit := 15, resetInSeconds := 60 }
    apiKeys := fun _ => none, requestId := "req-2"
    fetch := .crash, streamReadable := false }

/-- Witness for C4's amended statement: an active starter license whose
request fails later (provider key not configured, 503) still receives both
rate-limit headers. -/
theorem C4_rate_limit_headers_after_admission_witness :
    hasHeader (handler starterRequest starterEnv) "X-RateLimit-Limit"
      = true := by
  exact (C4_rate_limit_headers_after_admission starterRequest starterEnv
    "POM-W" starterLicense rfl rfl (by decide) rfl rfl).1

/-- A POST request whose credential is either unknown to the store or maps
to a non-active record is answered by the proxy with the single
`invalidKeyResponse`. -/
theorem handler_invalid_license (req : Request) (env : ProxyEnv)
    (licenseKey : String) (hm : req.method = "POST")
    (hk : extractLicenseKey req = some licenseKey) (hne : licenseKey ≠ "")
    (hrec : getLicense env.db licenseKey = none
      ∨ ∃ license, getLicense env.db licenseKey = some license
          ∧ license.status ≠ "active") :
    handler req env = invalidKeyResponse := by
  have h1 : (req.method == "OPTIONS") = false := by simp [hm]
  have h2 : (req.method != "POST") = false := by simp [hm]
  have h3 : (licenseKey == "") = false := by simp [hne]
  rcases hrec with habs | ⟨license, hlic, hst⟩
  · simp only [handler, h1, h2, hk, h3, habs, Bool.false_eq_true, if_false]
  · have h4 : (license.status != "active") = true := by simp [hst]
    simp only [handler, h1, h2, hk, h3, hlic, h4, Bool.false_eq_true,
      if_false, if_true]

/-- C8: two proxy requests, one presenting a key with no stored record and
one presenting a key whose record is not active, receive literally the
same response — status 401, type authentication_error, single code
invalid_license_key — while the separate verification endpoint
distinguishes the same two credentials: 404 "License key not found" for
the unknown key versus 403 "License is <status>" for the inactive one. -/
theorem C8_proxy_collapses_missing_and_inactive (env : ProxyEnv)
    (req1 req2 vreq1 vreq2 : Request) (k1 k2 : String)
    (license : LicenseRecord)
    (h1m : req1.method = "POST") (h2m : req2.method = "POST")
    (h1k : extractLicenseKey req1 = some k1) (h1ne : k1 ≠ "")
    (h2k : extractLicenseKey req2 = some k2) (h2ne : k2 ≠ "")
    (h1abs : getLicense env.db k1 = none)
    (h2rec : getLicense env.db k2 = some license)
    (hinact : license.status ≠ "active")
    (hv1m : vreq1.method = "GET") (hv2m : vreq2.method = "GET")
    (hv1k : extractLicenseKey vreq1 = some k1)
    (hv2k : extractLicenseKey vreq2 = some k2) :
    handler req1 env = handler req2 env ∧
    (handler req1 env).status = 401 ∧
    (handler req1 env).body = .errJson
      "Invalid or expired license key. Please check your key or renew your subscription."
      "authentication_error" (some "invalid_license_key") none ∧
    (verifyHandler vreq1 env.db).status = 404 ∧
    (verifyHandler vreq1 env.db).error = some "License key not found" ∧
    (verifyHandler vreq2 env.db).status = 403 ∧
    (verifyHandler vreq2 env.db).error
      = some ("License is " ++ license.status) := by
  have he1 := handler_invalid_license req1 env k1 h1m h1k h1ne (Or.inl h1abs)
  have he2 := handler_invalid_license req2 env k2 h2m h2k h2ne
    (Or.inr ⟨license, h2rec, hinact⟩)
  have hv1a : (vreq1.method == "OPTIONS") = false := by simp [hv1m]
  have hv1b : (vreq1.method != "GET") = false := by simp [hv1m]
  have hv2a : (vreq2.method == "OPTIONS") = false := by simp [hv2m]
  have hv2b : (vreq2.method != "GET") = false := by simp [hv2m]
  have hk1 : (k1 == "") = false := by simp [h1ne]
  have hk2 : (k2 == "") = false := by simp [h2ne]
  have hst : (license.status != "active") = true := by simp [hinact]
  have hver1 : verifyHandler vreq1 env.db
      = { status := 404, headers := [("Access-Control-Allow-Origin", "*")]
          active := some false, error := some "License key not found"
          licenseStatus := none } := by
    simp only [verifyHandler, hv1a, hv1b, hv1k, hk1, h1abs,
      Bool.false_eq_true, if_false]
  have hver2 : verifyHandler vreq2 env.db
      = { status := 403, headers := [("Access-Control-Allow-Origin", "*")]
          active := some false
          error := some ("License is " ++ license.status)
          licenseStatus := some license.status } := by
    simp only [verifyHandler, hv2a, hv2b, hv2k, hk2, h2rec, hst,
      Bool.false_eq_true, if_false, if_true]
  rw [he1, he2, hver1, hver2]
  exact ⟨rfl, rfl, rfl, rfl, rfl, rfl, rfl⟩

/-- A license fixture with status `expired`, for the C8 witness. -/
def expiredLicense : LicenseRecord :=
  { starterLicense with key := "POM-E", email := "e@b.c", status := "expired" }

/-- An environment that knows only the expired license, for the C8
witness. -/
def expiredEnv : ProxyEnv :=
  { starterEnv with
    db := { licenses := [("POM-E", expiredLicense)]
            emails := [("e@b.c", "POM-E")] } }

/-- A request presenting the unknown key `POM-A`. -/
def unknownKeyRequest : Request :=
  { starterRequest with xLicenseKey := some "POM-A" }

/-- A request presenting the expired key `POM-E`. -/
def expiredKeyRequest : Request :=
  { starterRequest with xLicenseKey := some "POM-E" }

/-- Witness for C8: against a store holding only an expired license, the
proxy answers the unknown key `POM-A` and the expired key `POM-E` with the
same response, while the verification endpoint answers 404 and 403. -/
theorem C8_proxy_collapses_missing_and_inactive_witness :
    handler unknownKeyRequest expiredEnv = handler expiredKeyRequest expiredEnv ∧
    (verifyHandler { unknownKeyRequest with method := "GET" } expiredEnv.db).status
      = 404 ∧
    (verifyHandler { expiredKeyRequest with method := "GET" } expiredEnv.db).status
      = 403 := by
  have h := C8_proxy_collapses_missing_and_inactive expiredEnv
    unknownKeyRequest expiredKeyRequest
    { unknownKeyRequest with method := "GET" }
    { expiredKeyRequest with method := "GET" }
    "POM-A" "POM-E" expiredLicense rfl rfl rfl (by decide) rfl (by decide)
    rfl rfl (by decide) rfl rfl rfl rfl
  exact ⟨h.1, h.2.2.2.1, h.2.2.2.2.2.1⟩

/-- C10: a request with no `X-License-Key` header whose `Authorization`
header does not begin with the literal `Bearer ` prefix is treated as
having no credential at all: the extractor yields nothing and the proxy
rejects with 401 and code missing_license_key — not invalid_license_key. -/
theorem C10_nonBearer_authorization_is_missing (req : Request)
    (env : ProxyEnv) (auth : String) (hm : req.method = "POST")
    (hx : req.xLicenseKey = none) (ha : req.authorization = some auth)
    (hb : auth.startsWith "Bearer " = false) :
    extractLicenseKey req = none ∧
    handler req env = missingKeyResponse ∧
    (handler req env).status = 401 ∧
    (handler req env).body = .errJson
      "Missing license key. Please enter your license key in extension settings."
      "authentication_error" (some "missing_license_key") none := by
  have hext : extractLicenseKey req = none := by
    simp only [extractLicenseKey, hx, ha, hb, Bool.and_false,
      Bool.false_eq_true, if_false]
  have h1 : (req.method == "OPTIONS") = false := by simp [hm]
  have h2 : (req.method != "POST") = false := by simp [hm]
  have hh : handler req env = missingKeyResponse := by
    simp only [handler, h1, h2, hext, Bool.false_eq_true, if_false]
  rw [hh]
  exact ⟨hext, rfl, rfl, rfl⟩

/-- Witness for C10: a raw key sent in `Authorization` without the Bearer
scheme is rejected as missing. -/
theorem C10_nonBearer_authorization_is_missing_witness :
    (handler { starterRequest with xLicenseKey := none
                                   authorization := some "POM-W" }
      starterEnv).status = 401 := by
  exact (C10_nonBearer_authorization_is_missing
    { starterRequest with xLicenseKey := none, authorization := some "POM-W" }
    starterEnv "POM-W" rfl rfl rfl (by decide)).2.2.1

end Pomoshnik
